import Mathlib

/-!
# Verification of `entra_connection.py` (Azure-Samples/Access-token-refresh-samples)

Shallow embedding of the token-to-credential-pair derivation pipeline and the
connection-bootstrap adapter from `src/python/entra_connection.py`, together
with theorems settling the spec claims.

Modelling conventions:
* Python strings are Lean `String`s (operated on through their `List Char`
  data, so every definition is executable by kernel reduction).
* Fallible code returns `Except PyErr _`; the distinct Python exception kinds
  that the module can raise or propagate are constructors of `PyErr`.
* Machine-level collaborators from the Python standard library
  (`base64.urlsafe_b64decode` in non-strict mode, `json.loads`) are modelled
  faithfully at the fidelity the module exercises: the base64 decoder follows
  CPython's lenient `binascii.a2b_base64` semantics (invalid characters are
  skipped, a padding run completing a quad at position ≥ 2 stops the decode,
  excess padding is tolerated, a dangling quad at end of input is an error);
  `json.loads` is modelled for flat JSON objects with ASCII string keys and
  string values and no escape sequences, which is the shape of the claim
  payloads this module consumes.
* Network effects (Azure token acquisition) are modelled by a `getToken`
  function stored in the credential object; the process-wide default
  credential singleton (`get_default_azure_credentials`) is passed explicitly
  as a `defaultCred` parameter.
* Functions that acquire tokens additionally return the list of scopes for
  which an acquisition was attempted, in order, so that claims about which
  acquisitions happen (and that none happens) are statable.
-/

namespace EntraConn

/-- The two well-known scope constants of the module. -/
def AZURE_DB_FOR_POSTGRES_SCOPE : String := "https://ossrdbms-aad.database.windows.net/.default"

/-- The management-service fallback scope constant of the module. -/
def AZURE_MANAGEMENT_SCOPE : String := "https://management.azure.com/.default"

/-- The Python exception kinds the module can raise or let propagate. -/
inductive PyErr where
  /-- Raised by `token.split(".")[1]` with fewer than two segments. -/
  | indexError
  /-- Error from `binascii` or ASCII encoding error inside `base64.urlsafe_b64decode`. -/
  | b64Error
  /-- Failure of `json.loads` on the decoded payload bytes. -/
  | jsonError
  /-- The `ValueError` raised when no username can be determined (lines 155-159). -/
  | usernameError
  /-- The `ValueError` raised for a credential that is not a
  `TokenCredential`/`AsyncTokenCredential` (line 186). -/
  | invalidCredential
  /-- Python `UnboundLocalError` for a local variable read before assignment. -/
  | unboundLocal (name : String)
  /-- A failure reported by the identity provider from `get_token`. -/
  | tokenAcquisition
  /-- Dictionary subscript on a missing key. -/
  | keyError
deriving DecidableEq, Repr

/-- Equality of `Except` results is decidable when both components' are. -/
instance {ε α : Type} [DecidableEq ε] [DecidableEq α] : DecidableEq (Except ε α) := fun a b =>
  match a, b with
  | .error e, .error f =>
      if h : e = f then .isTrue (congrArg Except.error h)
      else .isFalse fun hh => h (Except.error.inj hh)
  | .error _, .ok _ => .isFalse fun hh => Except.noConfusion hh
  | .ok _, .error _ => .isFalse fun hh => Except.noConfusion hh
  | .ok x, .ok y =>
      if h : x = y then .isTrue (congrArg Except.ok h)
      else .isFalse fun hh => h (Except.ok.inj hh)

/-! ## Model of `base64.urlsafe_b64decode` (CPython, non-strict mode) -/

/-- Value of a base64 data character after the urlsafe translation
(`-` ↦ `+`, `_` ↦ `/`); `none` for characters outside the alphabet. -/
def b64Val (c : Char) : Option Nat :=
  if 65 ≤ c.toNat ∧ c.toNat ≤ 90 then some (c.toNat - 65)
  else if 97 ≤ c.toNat ∧ c.toNat ≤ 122 then some (c.toNat - 71)
  else if 48 ≤ c.toNat ∧ c.toNat ≤ 57 then some (c.toNat + 4)
  else if c = '+' ∨ c = '-' then some 62
  else if c = '/' ∨ c = '_' then some 63
  else none

/-- Membership in the base64url alphabet (a data character of the decoder). -/
def isB64UrlChar (c : Char) : Bool :=
  (b64Val c).isSome

/-- One pass of CPython's `binascii.a2b_base64` in non-strict mode.
State: `quadPos` (position in the current 4-character group), `acc`
(leftover bits), `pads` (running pad counter, reset by data characters),
`out` (output bytes, reversed). A `=` that completes a quad at position
≥ 2 ends the decode successfully; a dangling quad at end of input fails. -/
def a2b_base64 : List Char → Nat → Nat → Nat → List Nat → Option (List Nat)
  | [], quadPos, _, _, out =>
      if quadPos = 0 then some out.reverse else none
  | c :: rest, quadPos, acc, pads, out =>
      if c = '=' then
        if 2 ≤ quadPos ∧ 4 ≤ quadPos + (pads + 1) then some out.reverse
        else a2b_base64 rest quadPos acc (pads + 1) out
      else
        match b64Val c with
        | none => a2b_base64 rest quadPos acc pads out
        | some v =>
          if quadPos = 0 then a2b_base64 rest 1 v 0 out
          else if quadPos = 1 then a2b_base64 rest 2 (v % 16) 0 ((acc * 4 + v / 16) :: out)
          else if quadPos = 2 then a2b_base64 rest 3 (v % 4) 0 ((acc * 16 + v / 4) :: out)
          else a2b_base64 rest 0 0 0 ((acc * 64 + v) :: out)

/-- Model of `base64.urlsafe_b64decode` on a `str` argument: the string must be pure
ASCII, then the translated bytes run through `a2b_base64`. -/
def urlsafe_b64decode (s : String) : Option (List Nat) :=
  if s.data.all (fun c => c.toNat < 128) then a2b_base64 s.data 0 0 0 [] else none

/-! ## Model of `json.loads` for flat string-valued objects -/

/-- JSON whitespace. -/
def jsonWs (c : Char) : Bool :=
  c = ' ' || c = '\t' || c = '\n' || c = '\r'

/-- Drop leading JSON whitespace. -/
def skipWs : List Char → List Char
  | [] => []
  | c :: rest => if jsonWs c then skipWs rest else c :: rest

/-- Body of a JSON string literal after the opening quote: plain characters up
to the closing quote (escape sequences and raw control characters are outside
the modelled fragment and fail the parse). -/
def parseStrBody : List Char → Option (List Char × List Char)
  | [] => none
  | c :: rest =>
      if c = '"' then some ([], rest)
      else if c = '\\' ∨ c.toNat < 32 then none
      else
        match parseStrBody rest with
        | some (s, r) => some (c :: s, r)
        | none => none

/-- The claims mapping produced by `json.loads`. -/
def Claims := List (String × String)

instance : DecidableEq Claims := by
  unfold Claims; infer_instance

/-- One `"key" : "value"` member. -/
def parsePair (cs : List Char) : Option ((String × String) × List Char) :=
  match cs with
  | '"' :: rest =>
      match parseStrBody rest with
      | none => none
      | some (k, r1) =>
        match skipWs r1 with
        | ':' :: r2 =>
          match skipWs r2 with
          | '"' :: r3 =>
            match parseStrBody r3 with
            | none => none
            | some (v, r4) => some ((String.mk k, String.mk v), r4)
          | _ => none
        | _ => none
  | _ => none

/-- Comma-separated members up to the closing brace. -/
def parseMembers : Nat → List Char → Option (Claims × List Char)
  | 0, _ => none
  | fuel + 1, cs =>
      match parsePair cs with
      | none => none
      | some (p, r) =>
        match skipWs r with
        | '}' :: r2 => some ([p], r2)
        | ',' :: r2 =>
          match parseMembers fuel (skipWs r2) with
          | some (ps, r3) => some (p :: ps, r3)
          | none => none
        | _ => none

/-- Model of `json.loads` on the decoded payload characters, for the flat-object
fragment described in the module header. -/
def json_loads_object (cs : List Char) : Option Claims :=
  match skipWs cs with
  | '{' :: r =>
      match skipWs r with
      | '}' :: r2 => if (skipWs r2).isEmpty then some [] else none
      | r2 =>
        match parseMembers (r2.length + 1) r2 with
        | some (ps, rest) => if (skipWs rest).isEmpty then some ps else none
        | none => none
  | _ => none

/-- Decode payload bytes to characters; the modelled fragment is ASCII. -/
def bytesToChars : List Nat → Option (List Char)
  | [] => some []
  | b :: rest =>
      if b < 128 then
        match bytesToChars rest with
        | some cs => some (Char.ofNat b :: cs)
        | none => none
      else none

/-! ## `decode_jwt` -/

/-- Python `str.split` on a single-character separator, here `"."`:
`"".split(".") = [""]`, separators delimit possibly-empty fields. -/
def splitOnDot : List Char → List (List Char)
  | [] => [[]]
  | c :: rest =>
      let r := splitOnDot rest
      if c = '.' then [] :: r
      else
        match r with
        | s :: ss => (c :: s) :: ss
        | [] => [[c]]

/-- Number of `=` characters `decode_jwt` appends:
`padding = "=" * (4 - len(payload) % 4)` (line 85). -/
def jwt_pad_count (payload : String) : Nat :=
  4 - payload.length % 4

/-- Function `decode_jwt` (lines 75-87): take the second dot-separated segment, append
the computed padding, base64url-decode, parse the bytes as JSON. -/
def decode_jwt (token : String) : Except PyErr Claims :=
  match (splitOnDot token.data).get? 1 with
  | none => .error .indexError
  | some payloadChars =>
    let payload : String := String.mk payloadChars
    let padded : String := payload ++ String.mk (List.replicate (jwt_pad_count payload) '=')
    match urlsafe_b64decode padded with
    | none => .error .b64Error
    | some bytes =>
      match bytesToChars bytes with
      | none => .error .jsonError
      | some cs =>
        match json_loads_object cs with
        | none => .error .jsonError
        | some claims => .ok claims

/-! ## Credentials and token acquisition -/

/-- Which of the two runtime-checkable credential protocols an object
satisfies: `TokenCredential` (sync), `AsyncTokenCredential`, or neither. -/
inductive CredKind where
  | sync
  | async
  | other
deriving DecidableEq, Repr

/-- A credential object: its protocol kind plus the behaviour of its
`get_token(scope)` method (the identity-provider interaction is external, so
its outcome per scope is data of the object). -/
structure Credential where
  kind : CredKind
  getToken : String → Except PyErr String

/-- Function `get_entra_token_async` (lines 33-46): `async with credential` then
`(await credential.get_token(scope)).token`. -/
def get_entra_token_async (credential : Credential) (scope : String) : Except PyErr String :=
  credential.getToken scope

/-- Function `get_entra_token` (lines 49-62): fall back to the process-wide default
credential when `credential` is `None`, then `credential.get_token(scope).token`.
The memoized `get_default_azure_credentials()` singleton is the explicit
`defaultCred` parameter. -/
def get_entra_token (credential : Option Credential) (defaultCred : Credential)
    (scope : String) : Except PyErr String :=
  (credential.getD defaultCred).getToken scope

/-- The acquisition dispatch of `get_entra_conninfo` (lines 130-133 and
143-146): async credentials take the async path, everything else (sync
credentials and `None`) the sync path. -/
def acquire_token (credential : Option Credential) (defaultCred : Credential)
    (scope : String) : Except PyErr String :=
  match credential with
  | some c =>
      if c.kind = CredKind.async then get_entra_token_async c scope
      else get_entra_token (some c) defaultCred scope
  | none => get_entra_token none defaultCred scope

/-! ## Username resolution -/

/-- A Python dictionary with string keys and string values, as an ordered
association list with unique keys. -/
def Dict := List (String × String)

instance : DecidableEq Dict := by
  unfold Dict; infer_instance

/-- Python `d.get(key)`: the value stored at `key`, or `None`. -/
def dget : Dict → String → Option String
  | [], _ => none
  | (k, v) :: rest, key => if k = key then some v else dget rest key

/-- Python `d[key] = value`: replace in place when the key exists, else append. -/
def dset : Dict → String → String → Dict
  | [], key, value => [(key, value)]
  | (k, v) :: rest, key, value =>
      if k = key then (k, value) :: rest else (k, v) :: dset rest key value

/-- Python `d1 | d2` (PEP 584): keys of `d1` in order with `d2`'s values winning,
then the keys only in `d2`, in `d2`'s order. -/
def dmerge (d1 d2 : Dict) : Dict :=
  (d1.map fun kv =>
    match dget d2 kv.1 with
    | some v => (kv.1, v)
    | none => kv) ++
  d2.filter fun kv => (dget d1 kv.1).isNone

/-- Python truthiness of an optional string: `None` and `""` are falsy. -/
def pyTruthy : Option String → Bool
  | none => false
  | some s => decide ¬ (s = "")

/-- Python `a or b` on optional-string claim values: first truthy wins,
otherwise the second operand is returned as-is. -/
def pyOrStr (a b : Option String) : Option String :=
  match a with
  | some s => if s = "" then b else some s
  | none => b

/-- ASCII lowering of one character, as Python `str.lower` acts on the ASCII
range (the constant being compared is pure ASCII). -/
def pyLowerChar (c : Char) : Char :=
  if 'A' ≤ c ∧ c ≤ 'Z' then Char.ofNat (c.toNat + 32) else c

/-- Python `str.lower` on the character list. -/
def pyLower (s : List Char) : List Char := s.map pyLowerChar

/-- Python `str.endswith` on character lists. -/
def endsWithL (s suffix : List Char) : Bool :=
  decide (suffix.length ≤ s.length) && decide (s.drop (s.length - suffix.length) = suffix)

/-- Index of the last occurrence of `target`, Python `str.rfind` with the
not-found value `-1` rendered as `none`. -/
def rfindChar : List Char → Char → Option Nat
  | [], _ => none
  | c :: rest, target =>
      match rfindChar rest target with
      | some i => some (i + 1)
      | none => if c = target then some 0 else none

/-- The managed-identity path segment constant of line 110. -/
def MIRID_SUFFIX : String := "providers/microsoft.managedidentity/userassignedidentities"

/-- Function `parse_principal_name` (lines 89-113): split the claim at its last `/`;
succeed only when the part after it is non-empty and the lowered part before
it ends with the managed-identity path segment. The argument is optional
because the call site passes `claims.get("xms_mirid")`, which may be `None`. -/
def parse_principal_name (xms_mirid : Option String) : Option String :=
  match xms_mirid with
  | none => none
  | some s =>
    if s = "" then none
    else
      match rfindChar s.data '/' with
      | none => none
      | some i =>
        let beginning := s.data.take i
        let principal_name := s.data.drop (i + 1)
        if principal_name = [] ∨ ¬ endsWithL (pyLower beginning) MIRID_SUFFIX.data then
          none
        else some (String.mk principal_name)

/-- The username-resolution chain of lines 135-140 (and again 148-153):
`parse_principal_name(claims.get("xms_mirid")) or claims.get("upn") or
claims.get("preferred_username") or claims.get("unique_name")`. -/
def resolve_username (claims : Claims) : Option String :=
  pyOrStr (parse_principal_name (dget claims "xms_mirid"))
    (pyOrStr (dget claims "upn")
      (pyOrStr (dget claims "preferred_username") (dget claims "unique_name")))

/-! ## `get_entra_conninfo` -/

/-- Function `get_entra_conninfo` (lines 116-161), paired with the trace of scopes for
which a token acquisition was attempted, in order. The success value is the
dictionary literal `{"user": username, "password": token}` of line 161. -/
def get_entra_conninfo (credential : Option Credential) (defaultCred : Credential) :
    Except PyErr Dict × List String :=
  match acquire_token credential defaultCred AZURE_DB_FOR_POSTGRES_SCOPE with
  | .error e => (.error e, [AZURE_DB_FOR_POSTGRES_SCOPE])
  | .ok token =>
    match decode_jwt token with
    | .error e => (.error e, [AZURE_DB_FOR_POSTGRES_SCOPE])
    | .ok claims =>
      let username := resolve_username claims
      if pyTruthy username then
        (.ok [("user", username.getD ""), ("password", token)], [AZURE_DB_FOR_POSTGRES_SCOPE])
      else
        match acquire_token credential defaultCred AZURE_MANAGEMENT_SCOPE with
        | .error e => (.error e, [AZURE_DB_FOR_POSTGRES_SCOPE, AZURE_MANAGEMENT_SCOPE])
        | .ok token2 =>
          match decode_jwt token2 with
          | .error e => (.error e, [AZURE_DB_FOR_POSTGRES_SCOPE, AZURE_MANAGEMENT_SCOPE])
          | .ok claims2 =>
            let username2 := resolve_username claims2
            if pyTruthy username2 then
              (.ok [("user", username2.getD ""), ("password", token2)],
                [AZURE_DB_FOR_POSTGRES_SCOPE, AZURE_MANAGEMENT_SCOPE])
            else
              (.error .usernameError,
                [AZURE_DB_FOR_POSTGRES_SCOPE, AZURE_MANAGEMENT_SCOPE])

/-! ## `AsyncEntraConnection.connect` -/

/-- The `if credential and not isinstance(credential, (TokenCredential,
AsyncTokenCredential))` guard of line 185: a present (truthy) credential
object satisfying neither protocol. -/
def credInvalid : Option Credential → Bool
  | none => false
  | some c => decide (c.kind = CredKind.other)

/-- Method `AsyncEntraConnection.connect` (lines 167-194). The `credential` keyword
argument is the separate `credential` parameter (`kwargs.pop("credential",
None)` removes it from the forwarded dictionary, so the model's `kwargs`
holds the remaining string-valued keyword arguments). The success value is
the keyword dictionary forwarded to `super().connect` — which line 194 builds
as `kwargs | entra_conninfo` — and the second component is the trace of scopes
for which a token acquisition was attempted. -/
def connect (credential : Option Credential) (kwargs : Dict) (defaultCred : Credential) :
    Except PyErr Dict × List String :=
  if credInvalid credential then (.error .invalidCredential, [])
  else
    if ¬ pyTruthy (dget kwargs "user") ∨ ¬ pyTruthy (dget kwargs "password") then
      let cred := credential.getD defaultCred
      match get_entra_conninfo (some cred) defaultCred with
      | (.error e, tr) => (.error e, tr)
      | (.ok entra_conninfo, tr) =>
        match dget entra_conninfo "password" with
        | none => (.error .keyError, tr)
        | some p =>
          let kwargs1 := dset kwargs "password" p
          if ¬ pyTruthy (dget kwargs1 "user") then
            match dget entra_conninfo "user" with
            | none => (.error .keyError, tr)
            | some u =>
              let kwargs2 := dset kwargs1 "user" u
              (.ok (dmerge kwargs2 entra_conninfo), tr)
          else
            (.ok (dmerge kwargs1 entra_conninfo), tr)
    else
      (.error (.unboundLocal "entra_conninfo"), [])

/-! ## Concrete fixtures (tokens whose payloads decode through the model) -/

/-- Token whose payload is `{"upn":"dbuser@contoso.com"}`. -/
def tokUpn : String := "h.eyJ1cG4iOiJkYnVzZXJAY29udG9zby5jb20ifQ.s"

/-- Token whose payload is `{"aud":"db"}` — no username claim. -/
def tokNoUser : String := "h.eyJhdWQiOiJkYiJ9.s"

/-- Token whose payload segment has length 1 (mod 4 = 1): base64 failure. -/
def tokMalformed : String := "h.a.s"

/-- Claims of `tokUpn`. -/
def claimsUpn : Claims := [("upn", "dbuser@contoso.com")]

/-- Claims of `tokNoUser`. -/
def claimsNoUser : Claims := [("aud", "db")]

/-- A synchronous credential whose tokens always carry a `upn` claim. -/
def credSyncOk : Credential := ⟨.sync, fun _ => .ok tokUpn⟩

/-- An asynchronous credential whose database-scope token has no username
claim but whose management-scope token does. -/
def credAsyncFallback : Credential :=
  ⟨.async, fun scope =>
    if scope = AZURE_DB_FOR_POSTGRES_SCOPE then .ok tokNoUser else .ok tokUpn⟩

/-- A synchronous credential none of whose tokens carries a username claim. -/
def credSyncNoUser : Credential := ⟨.sync, fun _ => .ok tokNoUser⟩

/-- A synchronous credential whose tokens have an undecodable payload. -/
def credSyncMalformed : Credential := ⟨.sync, fun _ => .ok tokMalformed⟩

/-- An object that satisfies neither credential protocol. -/
def credNotCredential : Credential := ⟨.other, fun _ => .error .tokenAcquisition⟩

/-! ## Helper lemmas -/

/-- A truthy optional string holds a non-empty string, which `getD ""` returns. -/
theorem pyTruthy_getD {o : Option String} (h : pyTruthy o = true) : o.getD "" ≠ "" := by
  cases o with
  | none => simp [pyTruthy] at h
  | some s => simpa [pyTruthy] using h

/-! ## Claims C1, C2, C9: the Bootstrap Adapter -/

/-- Claim C1 (code bug): with both `user` and `password` supplied and
non-empty, `connect` does not pass the request through unchanged — it raises
`UnboundLocalError` for `entra_conninfo`, because line 194 evaluates
`kwargs | entra_conninfo` although the branch that assigns `entra_conninfo`
did not run. The empty trace shows the Deriver part of the claim (no
derivation, no acquisition) did hold up to that point. -/
theorem connect_both_supplied_unbound_local :
    connect none [("user", "svc"), ("password", "secret"), ("host", "h")] credSyncOk =
      (.error (.unboundLocal "entra_conninfo"), []) := by
  decide

/-- Claim C2 (code bug): with exactly one of `user`/`password` supplied, the
supplied field does not survive to the underlying connection call. With
`user="svc"` supplied, the forwarded `user` is the derived
`"dbuser@contoso.com"` (the `kwargs | entra_conninfo` merge of line 194 lets
the derived pair win); with `password="supplied-secret"` supplied, the
forwarded password is the derived token (line 190 overwrites it, and the
merge would again). -/
theorem connect_one_supplied_overridden :
    connect none [("user", "svc"), ("host", "h")] credSyncOk =
      (.ok [("user", "dbuser@contoso.com"), ("host", "h"), ("password", tokUpn)],
        [AZURE_DB_FOR_POSTGRES_SCOPE]) ∧
    connect none [("password", "supplied-secret"), ("host", "h")] credSyncOk =
      (.ok [("password", tokUpn), ("host", "h"), ("user", "dbuser@contoso.com")],
        [AZURE_DB_FOR_POSTGRES_SCOPE]) := by
  constructor <;> decide

/-- Claim C9: a present credential object satisfying neither token-credential
protocol makes `connect` fail immediately with the invalid-credential
`ValueError`, with no token acquisition attempted (empty trace), for every
keyword dictionary and default credential. -/
theorem connect_invalid_credential (c : Credential) (kwargs : Dict)
    (defaultCred : Credential) (h : c.kind = CredKind.other) :
    connect (some c) kwargs defaultCred = (.error .invalidCredential, []) := by
  simp [connect, credInvalid, h]

/-- Witness for C9 at a concrete non-credential object and request. -/
theorem connect_invalid_credential_witness :
    connect (some credNotCredential) [("host", "h")] credSyncOk =
      (.error .invalidCredential, []) :=
  connect_invalid_credential credNotCredential [("host", "h")] credSyncOk rfl

/-! ## Claims C4, C7, C8, C10: the Credential Pair Deriver -/

/-- Claim C4: when the primary-scope token's claims yield no username and the
fallback-scope token's claims do, `get_entra_conninfo` performs exactly one
fallback acquisition (the trace is the two scopes, in order) and the returned
password is the fallback-scope token; and on the primary path the password is
the primary-scope token — in every successful derivation the password is the
token whose claims produced the username. -/
theorem conninfo_password_is_resolving_token (credential : Option Credential)
    (defaultCred : Credential) (tok1 tok2 : String) (claims1 claims2 : Claims) :
    (acquire_token credential defaultCred AZURE_DB_FOR_POSTGRES_SCOPE = .ok tok1 →
      decode_jwt tok1 = .ok claims1 →
      pyTruthy (resolve_username claims1) = false →
      acquire_token credential defaultCred AZURE_MANAGEMENT_SCOPE = .ok tok2 →
      decode_jwt tok2 = .ok claims2 →
      pyTruthy (resolve_username claims2) = true →
      get_entra_conninfo credential defaultCred =
        (.ok [("user", (resolve_username claims2).getD ""), ("password", tok2)],
          [AZURE_DB_FOR_POSTGRES_SCOPE, AZURE_MANAGEMENT_SCOPE])) ∧
    (acquire_token credential defaultCred AZURE_DB_FOR_POSTGRES_SCOPE = .ok tok1 →
      decode_jwt tok1 = .ok claims1 →
      pyTruthy (resolve_username claims1) = true →
      get_entra_conninfo credential defaultCred =
        (.ok [("user", (resolve_username claims1).getD ""), ("password", tok1)],
          [AZURE_DB_FOR_POSTGRES_SCOPE])) := by
  constructor
  · intro h1 h2 h3 h4 h5 h6
    simp [get_entra_conninfo, h1, h2, h3, h4, h5, h6]
  · intro h1 h2 h3
    simp [get_entra_conninfo, h1, h2, h3]

/-- Witness for C4: the fallback credential produces the fallback token as
password, after exactly the two acquisitions. -/
theorem conninfo_password_is_resolving_token_witness :
    get_entra_conninfo (some credAsyncFallback) credSyncOk =
      (.ok [("user", "dbuser@contoso.com"), ("password", tokUpn)],
        [AZURE_DB_FOR_POSTGRES_SCOPE, AZURE_MANAGEMENT_SCOPE]) := by
  have h := (conninfo_password_is_resolving_token (some credAsyncFallback) credSyncOk
    tokNoUser tokUpn claimsNoUser claimsUpn).1
    (by decide) (by decide) (by decide) (by decide) (by decide) (by decide)
  rw [h]; decide

/-- Claim C7: a decode failure on the primary-scope token aborts the
derivation with that decode error before any fallback acquisition is
attempted (the trace is the primary scope alone); and conversely, whenever
the management scope appears in the trace at all, the primary token decoded
successfully and merely yielded no truthy username. -/
theorem conninfo_decode_failure_aborts (credential : Option Credential)
    (defaultCred : Credential) :
    (∀ tok1 e, acquire_token credential defaultCred AZURE_DB_FOR_POSTGRES_SCOPE = .ok tok1 →
      decode_jwt tok1 = .error e →
      get_entra_conninfo credential defaultCred =
        (.error e, [AZURE_DB_FOR_POSTGRES_SCOPE])) ∧
    (∀ res tr, get_entra_conninfo credential defaultCred = (res, tr) →
      AZURE_MANAGEMENT_SCOPE ∈ tr →
      ∃ tok claims,
        acquire_token credential defaultCred AZURE_DB_FOR_POSTGRES_SCOPE = .ok tok ∧
        decode_jwt tok = .ok claims ∧
        pyTruthy (resolve_username claims) = false) := by
  constructor
  · intro tok1 e h1 h2
    simp [get_entra_conninfo, h1, h2]
  · intro res tr h hmem
    rcases hacq : acquire_token credential defaultCred AZURE_DB_FOR_POSTGRES_SCOPE with e | tok
    · have hval : get_entra_conninfo credential defaultCred =
          (.error e, [AZURE_DB_FOR_POSTGRES_SCOPE]) := by
        simp [get_entra_conninfo, hacq]
      rw [hval, Prod.mk.injEq] at h
      rw [← h.2] at hmem
      exact absurd hmem (by decide)
    · rcases hdec : decode_jwt tok with e | claims
      · have hval : get_entra_conninfo credential defaultCred =
            (.error e, [AZURE_DB_FOR_POSTGRES_SCOPE]) := by
          simp [get_entra_conninfo, hacq, hdec]
        rw [hval, Prod.mk.injEq] at h
        rw [← h.2] at hmem
        exact absurd hmem (by decide)
      · by_cases htr : pyTruthy (resolve_username claims) = true
        · have hval : get_entra_conninfo credential defaultCred =
              (.ok [("user", (resolve_username claims).getD ""), ("password", tok)],
                [AZURE_DB_FOR_POSTGRES_SCOPE]) := by
            simp [get_entra_conninfo, hacq, hdec, htr]
          rw [hval, Prod.mk.injEq] at h
          rw [← h.2] at hmem
          exact absurd hmem (by decide)
        · exact ⟨tok, claims, rfl, hdec, by simpa using htr⟩


/-- Witness for C7: a credential returning an undecodable primary token makes
the derivation abort with the base64 decode error after only the primary
acquisition; the fallback witness of C4 instantiates the converse half. -/
theorem conninfo_decode_failure_aborts_witness :
    get_entra_conninfo (some credSyncMalformed) credSyncOk =
      (.error .b64Error, [AZURE_DB_FOR_POSTGRES_SCOPE]) := by
  have h := (conninfo_decode_failure_aborts (some credSyncMalformed) credSyncOk).1
    tokMalformed .b64Error (by decide) (by decide)
  exact h

/-- Claim C8: when neither the primary-scope claims nor the fallback-scope
claims yield a truthy username, the derivation fails with the
username-resolution `ValueError` and the trace is exactly the two scopes —
no credential pair is produced and no further scope is attempted. -/
theorem conninfo_no_username_error (credential : Option Credential)
    (defaultCred : Credential) (tok1 tok2 : String) (claims1 claims2 : Claims)
    (h1 : acquire_token credential defaultCred AZURE_DB_FOR_POSTGRES_SCOPE = .ok tok1)
    (h2 : decode_jwt tok1 = .ok claims1)
    (h3 : pyTruthy (resolve_username claims1) = false)
    (h4 : acquire_token credential defaultCred AZURE_MANAGEMENT_SCOPE = .ok tok2)
    (h5 : decode_jwt tok2 = .ok claims2)
    (h6 : pyTruthy (resolve_username claims2) = false) :
    get_entra_conninfo credential defaultCred =
      (.error .usernameError, [AZURE_DB_FOR_POSTGRES_SCOPE, AZURE_MANAGEMENT_SCOPE]) := by
  simp [get_entra_conninfo, h1, h2, h3, h4, h5, h6]

/-- Witness for C8 with a credential that never returns username claims. -/
theorem conninfo_no_username_error_witness :
    get_entra_conninfo (some credSyncNoUser) credSyncOk =
      (.error .usernameError, [AZURE_DB_FOR_POSTGRES_SCOPE, AZURE_MANAGEMENT_SCOPE]) :=
  conninfo_no_username_error (some credSyncNoUser) credSyncOk
    tokNoUser tokNoUser claimsNoUser claimsNoUser
    (by decide) (by decide) (by decide) (by decide) (by decide) (by decide)

/-- Claim C10: every normal return of `get_entra_conninfo` is the dictionary
with exactly the keys `user` and `password` in that order, and the `user`
value is non-empty. -/
theorem conninfo_success_shape (credential : Option Credential)
    (defaultCred : Credential) (d : Dict) (tr : List String)
    (h : get_entra_conninfo credential defaultCred = (.ok d, tr)) :
    d.map Prod.fst = ["user", "password"] ∧
      ∃ u p, d = [("user", u), ("password", p)] ∧ u ≠ "" := by
  rcases hacq : acquire_token credential defaultCred AZURE_DB_FOR_POSTGRES_SCOPE with e | tok
  · have hval : get_entra_conninfo credential defaultCred =
        (.error e, [AZURE_DB_FOR_POSTGRES_SCOPE]) := by
      simp [get_entra_conninfo, hacq]
    rw [hval] at h
    simp at h
  · rcases hdec : decode_jwt tok with e | claims
    · have hval : get_entra_conninfo credential defaultCred =
          (.error e, [AZURE_DB_FOR_POSTGRES_SCOPE]) := by
        simp [get_entra_conninfo, hacq, hdec]
      rw [hval] at h
      simp at h
    · by_cases htr : pyTruthy (resolve_username claims) = true
      · have hval : get_entra_conninfo credential defaultCred =
            (.ok [("user", (resolve_username claims).getD ""), ("password", tok)],
              [AZURE_DB_FOR_POSTGRES_SCOPE]) := by
          simp [get_entra_conninfo, hacq, hdec, htr]
        rw [hval, Prod.mk.injEq] at h
        obtain rfl : d = [("user", (resolve_username claims).getD ""), ("password", tok)] :=
          (Except.ok.inj h.1).symm
        exact ⟨rfl, (resolve_username claims).getD "", tok, rfl, pyTruthy_getD htr⟩
      · rcases hacq2 : acquire_token credential defaultCred AZURE_MANAGEMENT_SCOPE with e | tok2
        · have hval : get_entra_conninfo credential defaultCred =
              (.error e, [AZURE_DB_FOR_POSTGRES_SCOPE, AZURE_MANAGEMENT_SCOPE]) := by
            simp [get_entra_conninfo, hacq, hdec, htr, hacq2]
          rw [hval] at h
          simp at h
        · rcases hdec2 : decode_jwt tok2 with e | claims2
          · have hval : get_entra_conninfo credential defaultCred =
                (.error e, [AZURE_DB_FOR_POSTGRES_SCOPE, AZURE_MANAGEMENT_SCOPE]) := by
              simp [get_entra_conninfo, hacq, hdec, htr, hacq2, hdec2]
            rw [hval] at h
            simp at h
          · by_cases htr2 : pyTruthy (resolve_username claims2) = true
            · have hval : get_entra_conninfo credential defaultCred =
                  (.ok [("user", (resolve_username claims2).getD ""), ("password", tok2)],
                    [AZURE_DB_FOR_POSTGRES_SCOPE, AZURE_MANAGEMENT_SCOPE]) := by
                simp [get_entra_conninfo, hacq, hdec, htr, hacq2, hdec2, htr2]
              rw [hval, Prod.mk.injEq] at h
              obtain rfl : d = [("user", (resolve_username claims2).getD ""), ("password", tok2)] :=
                (Except.ok.inj h.1).symm
              exact ⟨rfl, (resolve_username claims2).getD "", tok2, rfl, pyTruthy_getD htr2⟩
            · have hval : get_entra_conninfo credential defaultCred =
                  (.error .usernameError,
                    [AZURE_DB_FOR_POSTGRES_SCOPE, AZURE_MANAGEMENT_SCOPE]) := by
                simp [get_entra_conninfo, hacq, hdec, htr, hacq2, hdec2, htr2]
              rw [hval] at h
              simp at h

/-- Witness for C10 at the fixture whose upn claim resolves on the primary
scope. -/
theorem conninfo_success_shape_witness :
    ([("user", "dbuser@contoso.com"), ("password", tokUpn)] : Dict).map Prod.fst =
        ["user", "password"] ∧
      ∃ u p, ([("user", "dbuser@contoso.com"), ("password", tokUpn)] : Dict) =
        [("user", u), ("password", p)] ∧ u ≠ "" :=
  conninfo_success_shape (some credSyncOk) credSyncOk
    [("user", "dbuser@contoso.com"), ("password", tokUpn)]
    [AZURE_DB_FOR_POSTGRES_SCOPE] (by decide)

/-! ## Claims C5, C6: the Principal Name Resolver -/

/-- Lists without the target character have no last occurrence. -/
theorem rfindChar_eq_none {ys : List Char} {t : Char} (h : t ∉ ys) :
    rfindChar ys t = none := by
  induction ys with
  | nil => rfl
  | cons c rest ih =>
    have hct : ¬ c = t := by
      intro hc
      exact h (by rw [hc]; exact List.mem_cons_self t rest)
    have hrest : t ∉ rest := fun hm => h (List.mem_cons_of_mem _ hm)
    simp [rfindChar, ih hrest, hct]

/-- The last occurrence of `t` in `xs ++ t :: ys` with `t`-free `ys` is at
index `xs.length`. -/
theorem rfindChar_last {t : Char} (xs : List Char) {ys : List Char} (h : t ∉ ys) :
    rfindChar (xs ++ t :: ys) t = some xs.length := by
  induction xs with
  | nil => simp [rfindChar, rfindChar_eq_none h]
  | cons c xs ih => simp [rfindChar, ih]

/-- Claim C5: `parse_principal_name` returns the substring after the last
`/` exactly when that suffix is non-empty and the lowered prefix ends with
the managed-identity path segment; on strings without a `/` (including the
empty string) it returns `none`, not an error. The decomposition
`a ++ "/" ++ b` with slash-free `b` identifies the last `/`. -/
theorem parse_principal_name_characterization (s a b : String) :
    ('/' ∉ b.data →
      parse_principal_name (some (a ++ "/" ++ b)) =
        if b ≠ "" ∧ endsWithL (pyLower a.data) MIRID_SUFFIX.data = true
        then some b else none) ∧
    ('/' ∉ s.data → parse_principal_name (some s) = none) := by
  constructor
  · intro hb
    have hdata : (a ++ "/" ++ b).data = a.data ++ '/' :: b.data := by
      rw [String.data_append, String.data_append]
      simp
    have hne : ¬ (a ++ "/" ++ b) = "" := by
      intro hcontra
      have := congrArg String.data hcontra
      rw [hdata] at this
      simp at this
    rw [parse_principal_name, if_neg hne, hdata, rfindChar_last a.data hb]
    have htake : (a.data ++ '/' :: b.data).take a.data.length = a.data :=
      List.take_left a.data _
    have hdrop : (a.data ++ '/' :: b.data).drop (a.data.length + 1) = b.data := by
      have : a.data ++ '/' :: b.data = (a.data ++ ['/']) ++ b.data := by simp
      rw [this]
      have hlen : a.data.length + 1 = (a.data ++ ['/']).length := by simp
      rw [hlen, List.drop_left]
    simp only [htake, hdrop]
    by_cases hbe : b.data = []
    · have hb0 : b = "" := by
        cases b
        simp at hbe
        rw [hbe]
      simp [hbe, hb0]
    · have hb0 : ¬ b = "" := by
        intro hcontra
        rw [hcontra] at hbe
        simp at hbe
      by_cases hew : endsWithL (pyLower a.data) MIRID_SUFFIX.data = true
      · have hmk : String.mk b.data = b := by cases b; rfl
        simp [hbe, hb0, hew, hmk]
      · simp [hbe, hb0, hew]
  · intro hs
    by_cases h0 : s = ""
    · rw [parse_principal_name, if_pos h0]
    · rw [parse_principal_name, if_neg h0, rfindChar_eq_none hs]

/-- Witness for C5: the spec's example resource path resolves to `my-app`,
and a slash-free claim value resolves to nothing. -/
theorem parse_principal_name_characterization_witness :
    parse_principal_name (some
        "/subscriptions/x/resourcegroups/y/providers/Microsoft.ManagedIdentity/userAssignedIdentities/my-app") =
      some "my-app" ∧
    parse_principal_name (some "no-slash-here") = none := by
  have h := parse_principal_name_characterization "no-slash-here"
    "/subscriptions/x/resourcegroups/y/providers/Microsoft.ManagedIdentity/userAssignedIdentities"
    "my-app"
  constructor
  · have h1 := h.1 (by decide)
    rw [show ("/subscriptions/x/resourcegroups/y/providers/Microsoft.ManagedIdentity/userAssignedIdentities" ++ "/" ++ "my-app" : String) =
      "/subscriptions/x/resourcegroups/y/providers/Microsoft.ManagedIdentity/userAssignedIdentities/my-app" from by decide] at h1
    rw [h1]
    decide
  · exact h.2 (by decide)

/-- A falsy first operand of Python `or` yields the second operand. -/
theorem pyOrStr_of_falsy {a : Option String} (b : Option String)
    (h : pyTruthy a = false) : pyOrStr a b = b := by
  cases a with
  | none => rfl
  | some s =>
    simp only [pyTruthy, decide_eq_false_iff_not, not_not] at h
    simp [pyOrStr, h]

/-- A truthy first operand of Python `or` is returned itself. -/
theorem pyOrStr_of_truthy {a : Option String} (b : Option String)
    (h : pyTruthy a = true) : pyOrStr a b = a := by
  cases a with
  | none => simp [pyTruthy] at h
  | some s =>
    simp only [pyTruthy, decide_eq_true_eq] at h
    simp [pyOrStr, h]

/-- Claim C6: the username-resolution chain tries the structural `xms_mirid`
extraction, then `upn`, `preferred_username`, `unique_name`, in that exact
order; the first truthy (non-empty) value wins, and when all four are falsy
the resolution result is falsy — a value, not an exception. -/
theorem resolve_username_order (claims : Claims) :
    (pyTruthy (parse_principal_name (dget claims "xms_mirid")) = true →
      resolve_username claims = parse_principal_name (dget claims "xms_mirid")) ∧
    (pyTruthy (parse_principal_name (dget claims "xms_mirid")) = false →
      pyTruthy (dget claims "upn") = true →
      resolve_username claims = dget claims "upn") ∧
    (pyTruthy (parse_principal_name (dget claims "xms_mirid")) = false →
      pyTruthy (dget claims "upn") = false →
      pyTruthy (dget claims "preferred_username") = true →
      resolve_username claims = dget claims "preferred_username") ∧
    (pyTruthy (parse_principal_name (dget claims "xms_mirid")) = false →
      pyTruthy (dget claims "upn") = false →
      pyTruthy (dget claims "preferred_username") = false →
      pyTruthy (dget claims "unique_name") = true →
      resolve_username claims = dget claims "unique_name") ∧
    (pyTruthy (parse_principal_name (dget claims "xms_mirid")) = false →
      pyTruthy (dget claims "upn") = false →
      pyTruthy (dget claims "preferred_username") = false →
      pyTruthy (dget claims "unique_name") = false →
      pyTruthy (resolve_username claims) = false) := by
  refine ⟨?_, ?_, ?_, ?_, ?_⟩
  · intro h1
    rw [resolve_username, pyOrStr_of_truthy _ h1]
  · intro h1 h2
    rw [resolve_username, pyOrStr_of_falsy _ h1, pyOrStr_of_truthy _ h2]
  · intro h1 h2 h3
    rw [resolve_username, pyOrStr_of_falsy _ h1, pyOrStr_of_falsy _ h2,
      pyOrStr_of_truthy _ h3]
  · intro h1 h2 h3 _
    rw [resolve_username, pyOrStr_of_falsy _ h1, pyOrStr_of_falsy _ h2,
      pyOrStr_of_falsy _ h3]
  · intro h1 h2 h3 h4
    rw [resolve_username, pyOrStr_of_falsy _ h1, pyOrStr_of_falsy _ h2,
      pyOrStr_of_falsy _ h3, h4]

/-- Witness for C6: with an empty `upn` and a set `preferred_username`, the
chain falls through past the empty value; and with only unresolvable claims
the result is falsy. -/
theorem resolve_username_order_witness :
    resolve_username [("upn", ""), ("preferred_username", "pref-user")] =
      dget [("upn", ""), ("preferred_username", "pref-user")] "preferred_username" ∧
    pyTruthy (resolve_username [("aud", "db")]) = false := by
  constructor
  · exact (resolve_username_order [("upn", ""), ("preferred_username", "pref-user")]).2.2.1
      (by decide) (by decide) (by decide)
  · exact (resolve_username_order [("aud", "db")]).2.2.2.2
      (by decide) (by decide) (by decide) (by decide)

/-! ## Claim C3: padding in `decode_jwt` -/

/-- Base64url alphabet characters are ASCII. -/
theorem isB64UrlChar_lt_128 {c : Char} (h : isB64UrlChar c = true) : c.toNat < 128 := by
  rw [isB64UrlChar, b64Val] at h
  split_ifs at h with h1 h2 h3 h4 h5
  · omega
  · omega
  · omega
  · rcases h4 with rfl | rfl <;> decide
  · rcases h5 with rfl | rfl <;> decide
  · simp at h

/-- A list of alphabet characters passes the ASCII check of
`urlsafe_b64decode`. -/
theorem ascii_of_b64 {cs : List Char} (h : cs.all isB64UrlChar = true) :
    cs.all (fun c => decide (c.toNat < 128)) = true := by
  rw [List.all_eq_true] at h ⊢
  intro c hc
  simpa using isB64UrlChar_lt_128 (h c hc)

/-- Running the decoder through a block of data characters only advances the
quad position by the block length (mod 4), with pads staying reset. -/
theorem a2b_data_run (cs : List Char) : ∀ (rest : List Char) (qp acc : Nat) (out : List Nat),
    qp < 4 → cs.all isB64UrlChar = true →
    ∃ acc' out', a2b_base64 (cs ++ rest) qp acc 0 out =
      a2b_base64 rest ((qp + cs.length) % 4) acc' 0 out' := by
  induction cs with
  | nil =>
    intro rest qp acc out hqp _
    exact ⟨acc, out, by simp [Nat.mod_eq_of_lt hqp]⟩
  | cons c cs ih =>
    intro rest qp acc out hqp hall
    simp only [List.all_cons, Bool.and_eq_true] at hall
    obtain ⟨hc, hcs⟩ := hall
    rcases hv : b64Val c with _ | v
    · rw [isB64UrlChar, hv] at hc
      simp at hc
    · have hne : ¬ c = '=' := by
        intro hcc
        have hnone : b64Val '=' = none := by decide
        rw [hcc, hnone] at hv
        exact Option.noConfusion hv
      rw [List.cons_append]
      interval_cases qp
      · obtain ⟨acc', out', hrec⟩ := ih rest 1 v out (by omega) hcs
        refine ⟨acc', out', ?_⟩
        rw [show a2b_base64 (c :: (cs ++ rest)) 0 acc 0 out =
            a2b_base64 (cs ++ rest) 1 v 0 out from by simp [a2b_base64, hne, hv]]
        rw [hrec, List.length_cons]
        rw [show (0 + (cs.length + 1)) % 4 = (1 + cs.length) % 4 from by omega]
      · obtain ⟨acc', out', hrec⟩ := ih rest 2 (v % 16) ((acc * 4 + v / 16) :: out) (by omega) hcs
        refine ⟨acc', out', ?_⟩
        rw [show a2b_base64 (c :: (cs ++ rest)) 1 acc 0 out =
            a2b_base64 (cs ++ rest) 2 (v % 16) 0 ((acc * 4 + v / 16) :: out) from by
          simp [a2b_base64, hne, hv]]
        rw [hrec, List.length_cons]
        rw [show (1 + (cs.length + 1)) % 4 = (2 + cs.length) % 4 from by omega]
      · obtain ⟨acc', out', hrec⟩ := ih rest 3 (v % 4) ((acc * 16 + v / 4) :: out) (by omega) hcs
        refine ⟨acc', out', ?_⟩
        rw [show a2b_base64 (c :: (cs ++ rest)) 2 acc 0 out =
            a2b_base64 (cs ++ rest) 3 (v % 4) 0 ((acc * 16 + v / 4) :: out) from by
          simp [a2b_base64, hne, hv]]
        rw [hrec, List.length_cons]
        rw [show (2 + (cs.length + 1)) % 4 = (3 + cs.length) % 4 from by omega]
      · obtain ⟨acc', out', hrec⟩ := ih rest 0 0 ((acc * 64 + v) :: out) (by omega) hcs
        refine ⟨acc', out', ?_⟩
        rw [show a2b_base64 (c :: (cs ++ rest)) 3 acc 0 out =
            a2b_base64 (cs ++ rest) 0 0 0 ((acc * 64 + v) :: out) from by
          simp [a2b_base64, hne, hv]]
        rw [hrec, List.length_cons]
        rw [show (3 + (cs.length + 1)) % 4 = (0 + cs.length) % 4 from by omega]

/-- Four pads at quad position 0 are all tolerated and the decode succeeds. -/
theorem a2b_pads_qp0 (acc : Nat) (out : List Nat) :
    a2b_base64 ['=', '=', '=', '='] 0 acc 0 out = some out.reverse := rfl

/-- Three pads at quad position 1 never complete a quad; the dangling
character is an error at end of input. -/
theorem a2b_pads_qp1 (acc : Nat) (out : List Nat) :
    a2b_base64 ['=', '=', '='] 1 acc 0 out = none := rfl

/-- Two pads at quad position 2 complete the quad and stop the decode. -/
theorem a2b_pads_qp2 (acc : Nat) (out : List Nat) :
    a2b_base64 ['=', '='] 2 acc 0 out = some out.reverse := rfl

/-- One pad at quad position 3 completes the quad and stops the decode. -/
theorem a2b_pads_qp3 (acc : Nat) (out : List Nat) :
    a2b_base64 ['='] 3 acc 0 out = some out.reverse := rfl

/-- Claim C3 (amended): `decode_jwt` appends exactly `4 - len(payload) % 4`
padding characters — four, not zero, when the length is already a multiple
of 4 — and, because the decoder tolerates a pad run at quad position 0,
payloads of alphabet characters with length mod 4 equal to 0, 2 and 3 still
decode successfully while length mod 4 equal to 1 fails cleanly. -/
theorem decode_jwt_padding_behaviour (payload : String)
    (hb : payload.data.all isB64UrlChar = true) :
    jwt_pad_count payload = 4 - payload.length % 4 ∧
    (payload.length % 4 = 1 →
      urlsafe_b64decode
        (payload ++ String.mk (List.replicate (jwt_pad_count payload) '=')) = none) ∧
    (payload.length % 4 ≠ 1 →
      (urlsafe_b64decode
        (payload ++ String.mk (List.replicate (jwt_pad_count payload) '='))).isSome = true) := by
  have hdata : (payload ++ String.mk (List.replicate (jwt_pad_count payload) '=')).data
      = payload.data ++ List.replicate (jwt_pad_count payload) '=' := by
    rw [String.data_append]
  have hascii : ((payload.data ++ List.replicate (jwt_pad_count payload) '=').all
      (fun c => decide (c.toNat < 128))) = true := by
    rw [List.all_append, Bool.and_eq_true]
    refine ⟨ascii_of_b64 hb, ?_⟩
    rw [List.all_eq_true]
    intro c hc
    rw [List.eq_of_mem_replicate hc]
    decide
  have hurl : urlsafe_b64decode (payload ++ String.mk (List.replicate (jwt_pad_count payload) '=')) =
      a2b_base64 (payload.data ++ List.replicate (jwt_pad_count payload) '=') 0 0 0 [] := by
    rw [urlsafe_b64decode, hdata, if_pos hascii]
  obtain ⟨acc', out', hrun⟩ := a2b_data_run payload.data
    (List.replicate (jwt_pad_count payload) '=') 0 0 [] (by omega) hb
  have hlen : payload.data.length = payload.length := rfl
  refine ⟨rfl, ?_, ?_⟩
  · intro h1
    have hk : jwt_pad_count payload = 3 := by rw [jwt_pad_count, h1]
    have hq : (0 + payload.data.length) % 4 = 1 := by rw [Nat.zero_add, hlen, h1]
    rw [hurl, hrun, hq, hk]
    exact a2b_pads_qp1 acc' out'
  · intro h1
    have h4 : payload.length % 4 = 0 ∨ payload.length % 4 = 2 ∨ payload.length % 4 = 3 := by
      omega
    rcases h4 with h0 | h2 | h3
    · have hk : jwt_pad_count payload = 4 := by rw [jwt_pad_count, h0]
      have hq : (0 + payload.data.length) % 4 = 0 := by rw [Nat.zero_add, hlen, h0]
      rw [hurl, hrun, hq, hk,
        show (List.replicate 4 '=' : List Char) = ['=', '=', '=', '='] from rfl,
        a2b_pads_qp0]
      rfl
    · have hk : jwt_pad_count payload = 2 := by rw [jwt_pad_count, h2]
      have hq : (0 + payload.data.length) % 4 = 2 := by rw [Nat.zero_add, hlen, h2]
      rw [hurl, hrun, hq, hk,
        show (List.replicate 2 '=' : List Char) = ['=', '='] from rfl,
        a2b_pads_qp2]
      rfl
    · have hk : jwt_pad_count payload = 1 := by rw [jwt_pad_count, h3]
      have hq : (0 + payload.data.length) % 4 = 3 := by rw [Nat.zero_add, hlen, h3]
      rw [hurl, hrun, hq, hk,
        show (List.replicate 1 '=' : List Char) = ['='] from rfl,
        a2b_pads_qp3]
      rfl

/-- Counterexample to C3 as stated: on a payload whose length is a multiple
of 4, `decode_jwt` appends four `=` characters, not the claimed
`(4 - len % 4) % 4 = 0`. -/
theorem decode_jwt_padding_claim_false :
    jwt_pad_count "abcd" ≠ (4 - "abcd".length % 4) % 4 := by decide

/-- Witness for C3 at a mod-0 payload and at the mod-1 payload of the
`tokMalformed` fixture: the four-pad decode succeeds, the mod-1 decode fails. -/
theorem decode_jwt_padding_behaviour_witness :
    (urlsafe_b64decode
      ("abcd" ++ String.mk (List.replicate (jwt_pad_count "abcd") '='))).isSome = true ∧
    urlsafe_b64decode ("a" ++ String.mk (List.replicate (jwt_pad_count "a") '=')) = none :=
  ⟨(decode_jwt_padding_behaviour "abcd" (by decide)).2.2 (by decide),
   (decode_jwt_padding_behaviour "a" (by decide)).2.1 (by decide)⟩

end EntraConn
